import Mathlib

/-!
Verification of the Azenta repository core against its specification.

Part 1 — Target-Set Classification Engine
(src/5_filter_high_expression_genes.py).

Genes are modelled as strings.  The differential-expression table (`dea`)
is a list of (gene, baseMean) rows; baseMean is modelled as a rational
number (pandas reads it as a float; all the comparisons the script makes
are order comparisons, which ℚ models exactly for the decimal literals
involved).  Target lists are ordered lists of gene names, as read by
`pd.read_csv(..., header=None, names=['Gene'])`.
-/

namespace Azenta

/-- The outputs of the classification script body
(src/5_filter_high_expression_genes.py lines 90-124). -/
structure ClassifyOut where
  all_targets : Finset String
  all_no_targets_mm10 : Finset String
  all_no_targets : Finset String
  high_expression_genes : Finset String
  high_expression_no_targets : Finset String
  filtered_targets1 : List String
  filtered_targets2 : List String

/-- `all_genes = set(dea['gene'])` (line 90). -/
def all_genes (dea : List (String × ℚ)) : Finset String :=
  (dea.map Prod.fst).toFinset

/-- `high_expression_genes = set(dea[dea['baseMean'] > threshold]['gene'])`
(line 117): genes of the rows whose baseMean is strictly greater than the
threshold. -/
def high_expression_genes (dea : List (String × ℚ)) (threshold : ℚ) :
    Finset String :=
  ((dea.filter (fun r => decide (threshold < r.2))).map Prod.fst).toFinset

/-- The classification engine: the straight-line body of
src/5_filter_high_expression_genes.py (lines 90-124), with file I/O
abstracted into the input lists.
  * `all_targets = set(targets2['Gene'])` (line 94; the commented-out
    union with `targets1` on line 93 is not in effect),
  * `all_no_targets_mm10 = all_mm10_genes - all_targets` (line 97),
  * `all_no_targets = all_genes - all_targets` (line 100),
  * `high_expression_no_targets = high_expression_genes - all_targets`
    (line 120),
  * `filtered_targetsN = targetsN[targetsN['Gene'].isin(high_expression_genes)]`
    (lines 123-124): a row filter, keeping order and duplicates. -/
def classify (dea : List (String × ℚ)) (targets1 targets2 : List String)
    (all_mm10_genes : Finset String) (threshold : ℚ) : ClassifyOut :=
  let all_targets : Finset String := targets2.toFinset
  let high := high_expression_genes dea threshold
  { all_targets := all_targets
    all_no_targets_mm10 := all_mm10_genes \ all_targets
    all_no_targets := all_genes dea \ all_targets
    high_expression_genes := high
    high_expression_no_targets := high \ all_targets
    filtered_targets1 := targets1.filter (fun g => decide (g ∈ high))
    filtered_targets2 := targets2.filter (fun g => decide (g ∈ high)) }

/-!
Part 2 — Interval quantification (src/scripts/count_reads_in_peaks.py).

`count_reads` shells out to samtools/bedtools and then normalizes with
pandas.  The external tools are modelled as an environment recording, for
each invoked command, whether it exits zero, together with the data it
produces (total mapped reads; the rows of the coverage table).  Because
the commands run `shell=True` with an output redirection, the shell
creates the redirected file before the command runs, so a failing command
still leaves its (empty or partial) output file on disk; the model
records which temporary files exist when `count_reads` returns or raises.

pandas float division by an integer zero follows IEEE-754: it yields
+inf for a positive numerator and NaN for 0/0, raising no exception.
Normalized values are therefore modelled by `NVal`: a finite rational, or
infinity, or NaN.  (For the magnitudes involved, `raw_count * 1e6` is an
exact float64, so ℚ models the finite case exactly.)
-/

/-- A normalized-count value as produced by pandas float64 division:
finite, +infinity (positive / 0), or NaN (0 / 0). -/
inductive NVal where
  | fin (q : ℚ)
  | inf
  | nan
deriving DecidableEq

/-- A row of the intermediate counts table written by `bedtools coverage`
(columns `chr, start, end, gene, raw_count`, line 52-53). -/
structure RawRow where
  chrom : String
  start : ℕ
  stop : ℕ
  gene : String
  raw_count : ℕ
deriving DecidableEq

/-- A row of the final table: the raw row plus the derived `count`
column (line 56). -/
structure OutRow where
  chrom : String
  start : ℕ
  stop : ℕ
  gene : String
  raw_count : ℕ
  count : NVal
deriving DecidableEq

/-- `raw_count * 1e6 / total_reads` under pandas/numpy float semantics
(line 56): division by zero silently yields inf (or NaN for 0/0). -/
def normVal (raw_count total_reads : ℕ) : NVal :=
  if total_reads = 0 then
    (if raw_count = 0 then .nan else .inf)
  else
    .fin ((raw_count : ℚ) * 1000000 / (total_reads : ℚ))

/-- `df['count'] = df['raw_count'] * 1e6 / total_reads` applied to every
row of the counts table (line 56). -/
def normalizeRows (rows : List RawRow) (total_reads : ℕ) : List OutRow :=
  rows.map (fun r =>
    { chrom := r.chrom, start := r.start, stop := r.stop, gene := r.gene,
      raw_count := r.raw_count,
      count := normVal r.raw_count total_reads })

/-- `zero_peaks = (df['raw_count'] == 0).sum()` (line 66). -/
def zero_peaks (df : List OutRow) : ℕ :=
  (df.filter (fun r => decide (r.raw_count = 0))).length

/-- The low-signal warning condition `zero_peaks > len(df) * 0.5`
(line 67).  `zero_peaks` and `len(df)` are exact in float64 and `0.5` is
a dyadic rational, so the float comparison is exact and ℚ models it
faithfully. -/
def zeroCoverageWarning (df : List OutRow) : Bool :=
  decide ((zero_peaks df : ℚ) > (df.length : ℚ) * (1 / 2))

/-- The low-depth warning condition `total_reads < 1000000` (line 70). -/
def lowDepthWarning (total_reads : ℕ) : Bool :=
  decide (total_reads < 1000000)

/-- Which of the three temporary files of `count_reads` exist on disk
(lines 22-24: `genome_file`, `sorted_peaks`, `counts_tmp`). -/
structure TempState where
  genome : Bool
  sortedPeaks : Bool
  counts : Bool
deriving DecidableEq

/-- Outcome of each external command invoked by `count_reads`, plus the
data the successful commands produce. -/
structure Env where
  totalReadsOk : Bool
  totalReads : ℕ
  genomeOk : Bool
  sortOk : Bool
  coverageOk : Bool
  rows : List RawRow
deriving DecidableEq

/-- The orchestration of `count_reads` (lines 26-82), returning the
result (the normalized table, or the first raised error) together with
the set of temporary files existing when control leaves the function.
  * line 29: `samtools view -c -F 4` — raises before any temp file
    exists;
  * line 35: the genome command — the shell redirection creates
    `genome_file` first, and `check=True` raises on failure; this is
    before the `try`, so no cleanup runs;
  * line 40: `bedtools sort` — likewise creates `sorted_peaks` before a
    failure raises, still before the `try`;
  * lines 42-71: the `try` block — `bedtools coverage` (redirection
    creates `counts_tmp`), then reading, normalization, writing, QC;
  * lines 73-77: the `finally` block removes every one of the three temp
    files that exists, on success and on failure alike. -/
def countReads (env : Env) : Except String (List OutRow) × TempState :=
  if env.totalReadsOk = false then
    (.error "samtools view -c failed", ⟨false, false, false⟩)
  else if env.genomeOk = false then
    (.error "genome command failed", ⟨true, false, false⟩)
  else if env.sortOk = false then
    (.error "bedtools sort failed", ⟨true, true, false⟩)
  else
    let res : Except String (List OutRow) :=
      if env.coverageOk = false then .error "bedtools coverage failed"
      else .ok (normalizeRows env.rows env.totalReads)
    (res, ⟨false, false, false⟩)

/-!
Part 3 — Annotation gene-universe extractor
(`get_all_genes_from_gtf`, src/5_filter_high_expression_genes.py
lines 46-79).

The gzip stream is modelled as the list of its decoded lines.  Python
raises `IndexError` when `fields[2]` or `fields[8]` is accessed out of
bounds; this uncaught exception is modelled by `Except GtfError`.  The
`try/except ValueError` around the attribute unpacking is modelled by
`parseAttrSegment` returning `none` on the ValueError path (segment
skipped).
-/

/-- Errors that escape `get_all_genes_from_gtf`: an out-of-bounds list
index (`fields[2]` or `fields[8]`). -/
inductive GtfError where
  | indexError
deriving DecidableEq

/-- Python `s.split(sep)` for a one-character separator: split at every
occurrence, with no collapsing of empty pieces (`''.split(sep) = ['']`).
Character-list level so concrete inputs reduce in the kernel. -/
def splitChar (sep : Char) : List Char → List (List Char)
  | [] => [[]]
  | c :: cs =>
      match splitChar sep cs with
      | [] => [[]]
      | h :: t => if c = sep then [] :: h :: t else (c :: h) :: t

/-- Python `s.strip()`: remove leading and trailing whitespace. -/
def trimChars (l : List Char) : List Char :=
  ((l.dropWhile Char.isWhitespace).reverse.dropWhile
    Char.isWhitespace).reverse

/-- Python `s.split(sep, 1)` for a multi-character separator: the text
before the first occurrence of `sep` and the text after it, or `none`
when `sep` does not occur (the one-element-result case, which makes the
two-name unpacking raise ValueError). -/
def splitFirstAux (sep acc : List Char) :
    List Char → Option (List Char × List Char)
  | [] => none
  | c :: cs =>
      if (c :: cs).take sep.length = sep then
        some (acc.reverse, (c :: cs).drop sep.length)
      else splitFirstAux sep (c :: acc) cs

/-- Python `value.strip('"')`: remove every leading and trailing `"`
character. -/
def stripQuotes (l : List Char) : List Char :=
  ((l.dropWhile (fun c => c = '"')).reverse.dropWhile
    (fun c => c = '"')).reverse

/-- `key, value = attr.strip().split(' "', 1)` (line 68): split at the
first occurrence of the two-character separator `space-quote`; when the
separator does not occur the unpacking raises ValueError, which the
`except ValueError: continue` turns into a skip — modelled as `none`.
The returned pair already applies `key.strip()` and `value.strip('"')`
(line 69). -/
def parseAttrSegment (attr : List Char) : Option (String × String) :=
  match splitFirstAux [' ', '"'] [] (trimChars attr) with
  | none => none
  | some (k, v) => some (String.mk (trimChars k), String.mk (stripQuotes v))

/-- The `attr_dict` built by the loop on lines 63-71: blank segments
(`if not attr.strip(): continue`) and segments without the separator are
skipped; assignment to an existing key overwrites (the newest binding is
consulted first by `getAttr`). -/
def buildAttrDict (segs : List (List Char)) : List (String × String) :=
  segs.foldl
    (fun d attr =>
      if trimChars attr = [] then d
      else
        match parseAttrSegment attr with
        | none => d
        | some kv => kv :: d)
    []

/-- `attr_dict.get(key, '')` (lines 74-75). -/
def getAttr (d : List (String × String)) (k : String) : String :=
  match d.find? (fun p => decide (p.1 = k)) with
  | some p => p.2
  | none => ""

/-- `valid_gene_types = {'protein_coding'}` (lines 49-54; the other
biotypes are commented out). -/
def valid_gene_types : Finset String := {"protein_coding"}

/-- One iteration of the loop body of `get_all_genes_from_gtf`
(lines 57-78): skip comment lines; split the stripped line on tabs;
`fields[2]` and (when it equals `"gene"`) `fields[8]` raise IndexError
out of bounds; otherwise parse attributes and add the gene name when the
biotype is valid and the name non-empty. -/
def processGtfLine (genes : Finset String) (line : String) :
    Except GtfError (Finset String) :=
  if line.toList.take 1 = ['#'] then .ok genes
  else
    let fields := splitChar '\t' (trimChars line.toList)
    match fields.get? 2 with
    | none => .error .indexError
    | some f2 =>
        if f2 = "gene".toList then
          match fields.get? 8 with
          | none => .error .indexError
          | some f8 =>
              let attr_dict := buildAttrDict (splitChar ';' f8)
              let gene_type := getAttr attr_dict "gene_type"
              let gene_name := getAttr attr_dict "gene_name"
              if gene_type ∈ valid_gene_types ∧ gene_name ≠ "" then
                .ok (insert gene_name genes)
              else
                .ok genes
        else .ok genes

/-- `get_all_genes_from_gtf` (lines 46-79) on the decoded line stream:
fold the loop body over the lines, propagating the first uncaught
exception. -/
def get_all_genes_from_gtf (lines : List String) :
    Except GtfError (Finset String) :=
  lines.foldlM processGtfLine ∅

/-! ## Helper lemmas -/

/-- Membership in the high-expression set: a gene is in it exactly when
some row of the table carries that gene with baseMean strictly above the
threshold. -/
theorem mem_high_expression_genes {dea : List (String × ℚ)} {thr : ℚ}
    {g : String} :
    g ∈ high_expression_genes dea thr ↔ ∃ b, (g, b) ∈ dea ∧ thr < b := by
  simp only [high_expression_genes, List.mem_toFinset, List.mem_map,
    List.mem_filter, decide_eq_true_eq]
  constructor
  · rintro ⟨⟨a, b⟩, ⟨hmem, hlt⟩, rfl⟩
    exact ⟨b, hmem, hlt⟩
  · rintro ⟨b, hmem, hlt⟩
    exact ⟨(g, b), ⟨hmem, hlt⟩, rfl⟩

/-- Counting occurrences in a filtered list: kept in full when the
element passes the filter, absent otherwise. -/
theorem count_filter_eq (p : String → Bool) (l : List String) (g : String) :
    (l.filter p).count g = if p g = true then l.count g else 0 := by
  induction l with
  | nil => simp
  | cons a t ih =>
      by_cases hpa : p a = true
      · rw [List.filter_cons_of_pos hpa]
        by_cases hag : a = g
        · subst hag
          simp [List.count_cons_self, ih, hpa]
        · rw [List.count_cons_of_ne (Ne.symm hag),
            List.count_cons_of_ne (Ne.symm hag), ih]
      · rw [List.filter_cons_of_neg hpa, ih]
        by_cases hag : a = g
        · subst hag
          simp [hpa]
        · rw [List.count_cons_of_ne (Ne.symm hag)]

/-! ## Claims -/

/-- C3: the classification engine defines the target set as exactly the
set of genes of the second target list (`all_targets = set(targets2)`,
line 94); a gene that appears only in the first target list is not a
member of `all_targets`, and the first list plays no role in the
target / non-target partition (`all_targets`, `all_no_targets`,
`all_no_targets_mm10` are unchanged under any replacement of the first
list). -/
theorem C3_target_set_from_second_list_only (dea : List (String × ℚ))
    (t1 t2 : List String) (mm10 : Finset String) (thr : ℚ) :
    (∀ g, g ∈ (classify dea t1 t2 mm10 thr).all_targets ↔ g ∈ t2)
    ∧ (∀ g, g ∈ t1 ∧ g ∉ t2 →
        g ∉ (classify dea t1 t2 mm10 thr).all_targets)
    ∧ (∀ t1' : List String,
        ((classify dea t1' t2 mm10 thr).all_targets,
          (classify dea t1' t2 mm10 thr).all_no_targets,
          (classify dea t1' t2 mm10 thr).all_no_targets_mm10)
        = ((classify dea t1 t2 mm10 thr).all_targets,
            (classify dea t1 t2 mm10 thr).all_no_targets,
            (classify dea t1 t2 mm10 thr).all_no_targets_mm10)) := by
  refine ⟨fun g => ?_, fun g h => ?_, fun t1' => rfl⟩
  · simp [classify]
  · simp only [classify, List.mem_toFinset]
    exact h.2

/-- C5: the non-target sets, computed by set subtraction from the gene
universes, are disjoint from the target set:
`all_no_targets ∩ all_targets = ∅` and
`all_no_targets_mm10 ∩ all_targets = ∅`, an instance of
`(U − T) ∩ T = ∅`. -/
theorem C5_no_targets_disjoint_from_targets (dea : List (String × ℚ))
    (t1 t2 : List String) (mm10 : Finset String) (thr : ℚ) :
    ((classify dea t1 t2 mm10 thr).all_no_targets
        ∩ (classify dea t1 t2 mm10 thr).all_targets = ∅)
    ∧ ((classify dea t1 t2 mm10 thr).all_no_targets_mm10
        ∩ (classify dea t1 t2 mm10 thr).all_targets = ∅)
    ∧ (∀ U T : Finset String, (U \ T) ∩ T = ∅) := by
  refine ⟨?_, ?_, fun U T => ?_⟩ <;>
    simp [classify, Finset.sdiff_inter_self]

/-- C6: the high-expression gene set shrinks monotonically as the
threshold rises: for thresholds t1 < t2, the set computed at t2 is a
subset of the set computed at t1. -/
theorem C6_high_expression_antitone (dea : List (String × ℚ))
    (t1 t2 : List String) (mm10 : Finset String) (thr1 thr2 : ℚ)
    (h : thr1 < thr2) :
    (classify dea t1 t2 mm10 thr2).high_expression_genes ⊆
      (classify dea t1 t2 mm10 thr1).high_expression_genes := by
  intro g hg
  simp only [classify] at hg ⊢
  rw [mem_high_expression_genes] at hg ⊢
  obtain ⟨b, hmem, hlt⟩ := hg
  exact ⟨b, hmem, h.trans hlt⟩

/-- Witness for C6 at a concrete table and the thresholds 100 < 200. -/
theorem C6_high_expression_antitone_witness :
    (classify [("A", (50 : ℚ)), ("B", 150), ("C", 300)] ["A"] ["B"]
        ∅ 200).high_expression_genes ⊆
      (classify [("A", (50 : ℚ)), ("B", 150), ("C", 300)] ["A"] ["B"]
        ∅ 100).high_expression_genes :=
  C6_high_expression_antitone _ _ _ _ 100 200 (by norm_num)

/-- C4: `high_expression_genes` is exactly the set of genes carried by a
table row with baseMean strictly greater than the threshold; a gene whose
only baseMean equals the threshold is excluded; and for the table
{(A,50),(B,150),(C,300)} with threshold 100 and second target list
[B, X], the set is {B, C}, the filtered second list is [B] and
`all_no_targets` is {A, C}. -/
theorem C4_high_expression_strict_threshold (dea : List (String × ℚ))
    (t1 t2 : List String) (mm10 : Finset String) (thr : ℚ) :
    (∀ g, g ∈ (classify dea t1 t2 mm10 thr).high_expression_genes
        ↔ ∃ b, (g, b) ∈ dea ∧ thr < b)
    ∧ (∀ g, (g, thr) ∈ dea → (∀ b, (g, b) ∈ dea → b = thr) →
        g ∉ (classify dea t1 t2 mm10 thr).high_expression_genes)
    ∧ (classify [("A", (50 : ℚ)), ("B", 150), ("C", 300)] ["A"] ["B", "X"]
        ∅ 100).high_expression_genes = {"B", "C"}
    ∧ (classify [("A", (50 : ℚ)), ("B", 150), ("C", 300)] ["A"] ["B", "X"]
        ∅ 100).filtered_targets2 = ["B"]
    ∧ (classify [("A", (50 : ℚ)), ("B", 150), ("C", 300)] ["A"] ["B", "X"]
        ∅ 100).all_no_targets = {"A", "C"} := by
  refine ⟨fun g => ?_, fun g hmem hall hg => ?_, by decide, by decide,
    by decide⟩
  · simp only [classify]
    exact mem_high_expression_genes
  · simp only [classify, mem_high_expression_genes] at hg
    obtain ⟨b, hb, hlt⟩ := hg
    exact absurd (hall b hb) (ne_of_gt hlt)

/-- C7: each filtered target list is a subsequence of its original list
(order preserved), keeps exactly the entries whose gene is in
`high_expression_genes` (with multiplicity, so duplicates survive), and
never contains a gene absent from the original list. -/
theorem C7_filtered_lists_are_subsequences (dea : List (String × ℚ))
    (t1 t2 : List String) (mm10 : Finset String) (thr : ℚ) :
    ((classify dea t1 t2 mm10 thr).filtered_targets1.Sublist t1
      ∧ (∀ g, (classify dea t1 t2 mm10 thr).filtered_targets1.count g
          = if g ∈ high_expression_genes dea thr then t1.count g else 0)
      ∧ (∀ g, g ∈ (classify dea t1 t2 mm10 thr).filtered_targets1 →
          g ∈ t1))
    ∧ ((classify dea t1 t2 mm10 thr).filtered_targets2.Sublist t2
      ∧ (∀ g, (classify dea t1 t2 mm10 thr).filtered_targets2.count g
          = if g ∈ high_expression_genes dea thr then t2.count g else 0)
      ∧ (∀ g, g ∈ (classify dea t1 t2 mm10 thr).filtered_targets2 →
          g ∈ t2)) := by
  simp only [classify]
  refine ⟨⟨List.filter_sublist t1, fun g => ?_, fun g hgm => ?_⟩,
    ⟨List.filter_sublist t2, fun g => ?_, fun g hgm => ?_⟩⟩
  · rw [count_filter_eq]
    by_cases hgh : g ∈ high_expression_genes dea thr <;> simp [hgh]
  · exact (List.filter_sublist t1).mem hgm
  · rw [count_filter_eq]
    by_cases hgh : g ∈ high_expression_genes dea thr <;> simp [hgh]
  · exact (List.filter_sublist t2).mem hgm

/-- C8: with a positive total, every row's normalized count is exactly
`raw_count * 1e6 / total_mapped_reads` (reads-per-million, no
interval-length factor). -/
theorem C8_rpm_normalization (rows : List RawRow) (total_reads : ℕ)
    (h : 0 < total_reads) :
    (normalizeRows rows total_reads).map OutRow.count
      = rows.map (fun r =>
          NVal.fin ((r.raw_count : ℚ) * 1000000 / (total_reads : ℚ)))
    ∧ ∀ r ∈ normalizeRows rows total_reads,
        r.count = .fin ((r.raw_count : ℚ) * 1000000 / (total_reads : ℚ)) := by
  constructor
  · simp only [normalizeRows, List.map_map]
    refine List.map_congr_left fun r _ => ?_
    simp [normVal, h.ne']
  · intro r hr
    simp only [normalizeRows, List.mem_map] at hr
    obtain ⟨a, _, rfl⟩ := hr
    simp [normVal, h.ne']

/-- Witness for C8: a raw count of 10 with 5,000,000 total mapped reads
normalizes to exactly 2. -/
theorem C8_rpm_normalization_witness :
    (normalizeRows [⟨"chr1", 0, 100, "p1", 10⟩] 5000000).map OutRow.count
      = [NVal.fin 2] := by
  rw [(C8_rpm_normalization [⟨"chr1", 0, 100, "p1", 10⟩] 5000000
    (by norm_num)).1]
  norm_num

/-- C9: for a non-empty counts table, the low-signal warning fires
exactly when the fraction of intervals with raw_count = 0 is strictly
greater than 1/2; at exactly 1/2 no warning is emitted. -/
theorem C9_zero_coverage_warning_strict (df : List OutRow)
    (h : df ≠ []) :
    (zeroCoverageWarning df = true
      ↔ (1 : ℚ) / 2 < (zero_peaks df : ℚ) / (df.length : ℚ))
    ∧ ((zero_peaks df : ℚ) / (df.length : ℚ) = 1 / 2 →
        zeroCoverageWarning df = false) := by
  have hlen0 : (0 : ℚ) < (df.length : ℚ) := by
    exact_mod_cast List.length_pos.mpr h
  have key : zeroCoverageWarning df = true
      ↔ (df.length : ℚ) * (1 / 2) < (zero_peaks df : ℚ) := by
    simp [zeroCoverageWarning]
  refine ⟨key.trans ?_, fun heq => ?_⟩
  · rw [lt_div_iff₀ hlen0]
    constructor <;> intro h' <;> linarith
  · rw [div_eq_iff hlen0.ne'] at heq
    cases hW : zeroCoverageWarning df with
    | false => rfl
    | true => exact absurd (key.mp hW) (by rw [heq]; linarith)

/-- Witness for C9 at a two-row table with exactly half the rows at
zero coverage: the warning stays off. -/
theorem C9_zero_coverage_warning_strict_witness :
    (zeroCoverageWarning
        [⟨"chr1", 0, 100, "p1", 0, .fin 0⟩,
         ⟨"chr1", 100, 200, "p2", 3, .fin 1⟩] = true
      ↔ (1 : ℚ) / 2 <
          ((zero_peaks [⟨"chr1", 0, 100, "p1", 0, .fin 0⟩,
            ⟨"chr1", 100, 200, "p2", 3, .fin 1⟩] : ℕ) : ℚ)
          / (([⟨"chr1", 0, 100, "p1", 0, .fin 0⟩,
            ⟨"chr1", 100, 200, "p2", 3, .fin 1⟩] : List OutRow).length : ℚ))
    ∧ (((zero_peaks [⟨"chr1", 0, 100, "p1", 0, .fin 0⟩,
          ⟨"chr1", 100, 200, "p2", 3, .fin 1⟩] : ℕ) : ℚ)
          / (([⟨"chr1", 0, 100, "p1", 0, .fin 0⟩,
            ⟨"chr1", 100, 200, "p2", 3, .fin 1⟩] : List OutRow).length : ℚ)
          = 1 / 2 →
        zeroCoverageWarning
          [⟨"chr1", 0, 100, "p1", 0, .fin 0⟩,
           ⟨"chr1", 100, 200, "p2", 3, .fin 1⟩] = false) :=
  C9_zero_coverage_warning_strict _ (List.cons_ne_nil _ _)

/-- C1 counterexample: with total_mapped_reads = 0 and every external
command succeeding, `count_reads` does not raise — it returns the table
with an infinite normalized count for the row with raw_count 10 (and
cleans up), instead of failing fatally. -/
theorem C1_counterexample_zero_total_no_failure :
    countReads ⟨true, 0, true, true, true, [⟨"chr1", 0, 100, "p1", 10⟩]⟩
      = (.ok [⟨"chr1", 0, 100, "p1", 10, .inf⟩], ⟨false, false, false⟩) := by
  rfl

/-- C1 amended: with total_mapped_reads = 0 the normalization step of
`count_reads` does not fail — the run completes, and every normalized
count is silently infinity (raw_count > 0) or NaN (raw_count = 0). -/
theorem C1_amended_zero_total_silent_inf_nan (env : Env)
    (h1 : env.totalReadsOk = true) (h2 : env.genomeOk = true)
    (h3 : env.sortOk = true) (h4 : env.coverageOk = true)
    (h0 : env.totalReads = 0) :
    (countReads env
      = (.ok (normalizeRows env.rows 0), ⟨false, false, false⟩))
    ∧ ∀ r ∈ normalizeRows env.rows 0, r.count = .inf ∨ r.count = .nan := by
  constructor
  · simp [countReads, h1, h2, h3, h4, h0]
  · intro r hr
    simp only [normalizeRows, List.mem_map] at hr
    obtain ⟨a, _, rfl⟩ := hr
    by_cases hz : a.raw_count = 0 <;> simp [normVal, hz]

/-- Witness for the amended C1 at a concrete one-row environment with
zero total mapped reads. -/
theorem C1_amended_zero_total_silent_inf_nan_witness :
    (countReads ⟨true, 0, true, true, true, [⟨"chr1", 0, 100, "p1", 10⟩]⟩
      = (.ok (normalizeRows [⟨"chr1", 0, 100, "p1", 10⟩] 0),
          ⟨false, false, false⟩))
    ∧ ∀ r ∈ normalizeRows [⟨"chr1", 0, 100, "p1", 10⟩] 0,
        r.count = .inf ∨ r.count = .nan :=
  C1_amended_zero_total_silent_inf_nan _ rfl rfl rfl rfl rfl

/-- C2 counterexample: when `bedtools sort` fails, `count_reads` raises
before the `try` block, so no cleanup runs: the genome file and the
sorted-peaks file both still exist when the exception propagates. -/
theorem C2_counterexample_sort_failure_leaks_temp_files :
    countReads ⟨true, 5000000, true, false, true, []⟩
      = (.error "bedtools sort failed", ⟨true, true, false⟩) := by
  rfl

/-- C2 amended: the `finally` cleanup is guaranteed only on exit paths
that reach the `try` block, i.e. when the genome-file command and the
sort command both succeed; on every such path (coverage failure or
success) all three temporary files are removed.  (When the genome or
sort command fails, already-created temporary files are leaked.) -/
theorem C2_amended_cleanup_inside_try (env : Env)
    (hg : env.genomeOk = true) (hs : env.sortOk = true) :
    (countReads env).2 = ⟨false, false, false⟩ := by
  rcases env with ⟨tOk, t, gOk, sOk, cOk, rows⟩
  cases tOk <;> cases cOk <;> simp_all [countReads]

/-- Witness for the amended C2 at a concrete all-successful
environment. -/
theorem C2_amended_cleanup_inside_try_witness :
    (countReads ⟨true, 5000000, true, true, true, []⟩).2
      = ⟨false, false, false⟩ :=
  C2_amended_cleanup_inside_try _ rfl rfl

/-- One line of the annotation stream cannot raise when, unless it is a
comment, its stripped tab-split has at least 9 fields. -/
theorem processGtfLine_ok (genes : Finset String) (l : String)
    (h : l.toList.take 1 ≠ ['#'] →
      9 ≤ (splitChar '\t' (trimChars l.toList)).length) :
    ∃ s, processGtfLine genes l = .ok s := by
  unfold processGtfLine
  by_cases hc : l.toList.take 1 = ['#']
  · exact ⟨genes, by rw [if_pos hc]⟩
  · have h9 := h hc
    rcases hf2 : (splitChar '\t' (trimChars l.toList)).get? 2 with _ | f2
    · exact absurd (List.get?_eq_none.mp hf2) (by omega)
    rcases hf8 : (splitChar '\t' (trimChars l.toList)).get? 8 with _ | f8
    · exact absurd (List.get?_eq_none.mp hf8) (by omega)
    simp only [hc, if_false, hf2, hf8]
    by_cases hg : f2 = "gene".toList
    · simp only [hg, if_true]
      by_cases hv :
          getAttr (buildAttrDict (splitChar ';' f8)) "gene_type"
              ∈ valid_gene_types
            ∧ getAttr (buildAttrDict (splitChar ';' f8)) "gene_name" ≠ "" <;>
        simp [hv]
    · have hg2 : ¬ f2 = ['g', 'e', 'n', 'e'] := hg
      simp [hg2]

/-- Folding the line processor over lines that all satisfy the
field-count precondition never raises, from any starting set. -/
theorem foldl_processGtfLine_ok (lines : List String)
    (h : ∀ l ∈ lines, l.toList.take 1 ≠ ['#'] →
      9 ≤ (splitChar '\t' (trimChars l.toList)).length) :
    ∀ genes : Finset String,
      ∃ s, lines.foldlM processGtfLine genes = .ok s := by
  induction lines with
  | nil => exact fun genes => ⟨genes, rfl⟩
  | cons a t ih =>
      intro genes
      obtain ⟨s1, hs1⟩ := processGtfLine_ok genes a (h a (by simp))
      obtain ⟨s2, hs2⟩ := ih (fun l hl => h l (by simp [hl])) s1
      refine ⟨s2, ?_⟩
      have hcons : (a :: t).foldlM processGtfLine genes
          = processGtfLine genes a >>= fun b => t.foldlM processGtfLine b :=
        rfl
      rw [hcons, hs1]
      exact hs2

/-- C10: when every non-comment line of the annotation stream has at
least 9 tab-delimited fields, `get_all_genes_from_gtf` never fails — the
`fields[2]` and `fields[8]` accesses are in bounds and malformed
attribute segments (no `space-quote` separator) are skipped by the
caught ValueError, as the second conjunct shows concretely on a line
with a `malformed` segment; and the field-count precondition really is
required: a non-comment line with only two fields raises IndexError
(third conjunct), which the malformed-segment tolerance does not
cover. -/
theorem C10_gtf_parser_safety :
    (∀ lines : List String,
        (∀ l ∈ lines, l.toList.take 1 ≠ ['#'] →
          9 ≤ (splitChar '\t' (trimChars l.toList)).length) →
        ∃ s, get_all_genes_from_gtf lines = .ok s)
    ∧ get_all_genes_from_gtf
        ["#comment",
         "chr1\tHAVANA\tgene\t1\t100\t.\t+\t.\tgene_id \"G1\"; gene_type \"protein_coding\"; malformed; gene_name \"A\""]
        = .ok {"A"}
    ∧ get_all_genes_from_gtf ["chr1\tx"] = .error .indexError := by
  exact ⟨fun lines h => foldl_processGtfLine_ok lines h ∅, by rfl, by rfl⟩

end Azenta
